import Mathlib

/-!
Verification development for `tool-network-dashboard/visualizations.py`.

The single function `create_visualization(df)` renders a network-traffic
dashboard from a row-oriented table with columns `timestamp` (epoch
seconds, possibly unparsable), `protocol` (string), `size` (numeric) and
optionally `source` (string).  We embed the table as a list of rows plus
two column-presence flags, the Streamlit output stream as a list of
output items, and each pandas aggregation as a Lean function on lists.
-/

/-- One row of the input table.  `timestamp = none` models a value that
`pd.to_datetime(..., errors='coerce')` turns into `NaT` (non-numeric or
unparsable); `timestamp = some q` models a numeric epoch-seconds value
that converts successfully.  `size` is numeric (ℚ); `protocol` and
`source` are strings. -/
structure Row where
  timestamp : Option ℚ
  protocol : String
  size : ℚ
  source : String
deriving DecidableEq

/-- The input table.  `hasTimestamp` / `hasSource` model column presence
(per-table, as in a DataFrame):  reading a missing `timestamp` column
raises inside the guarded conversion, and the top-talkers widget is
keyed on `'source' in df.columns`. -/
structure Table where
  hasTimestamp : Bool
  hasSource : Bool
  rows : List Row
deriving DecidableEq

/-- One item written to the Streamlit output stream, in order:
`st.markdown`/`st.subheader` headings, `st.warning`/`st.error`/`st.success`
banners, and the four chart widgets (`st.plotly_chart` pie/line/bar and
`st.dataframe`).  Chart payloads carry the aggregated data that the
corresponding plotly figure is built from. -/
inductive OutItem where
  | header (s : String)
  | warning (s : String)
  | error (s : String)
  | subheader (s : String)
  | pieChart (title : String) (data : List (String × Nat))
  | lineChart (title : String) (data : List (Int × Nat))
  | barChart (title : String) (data : List (String × ℚ × String))
  | tableWidget (data : List (String × Nat))
  | success (s : String)
deriving DecidableEq

/-- `true` exactly on the four chart widgets (pie, line, bar, table). -/
def OutItem.isChart : OutItem → Bool
  | .pieChart _ _ => true
  | .lineChart _ _ => true
  | .barChart _ _ => true
  | .tableWidget _ => true
  | _ => false

/-- `true` exactly on `st.error` banners. -/
def OutItem.isError : OutItem → Bool
  | .error _ => true
  | _ => false

/-- `true` exactly on `st.success` banners. -/
def OutItem.isSuccess : OutItem → Bool
  | .success _ => true
  | _ => false

/-- Stable insertion into a sorted list (`le` is the sorting test). -/
def insertLe {α : Type} (le : α → α → Bool) (x : α) : List α → List α
  | [] => [x]
  | y :: ys => if le x y then x :: y :: ys else y :: insertLe le x ys

/-- Stable sort by the Boolean test `le`; models the sorting performed by
pandas inside `value_counts` (descending counts) and `groupby` (ascending
keys). -/
def sortByLe {α : Type} (le : α → α → Bool) : List α → List α
  | [] => []
  | x :: xs => insertLe le x (sortByLe le xs)

/-- The distinct values of `l` in order of first occurrence. -/
def firstOccur {α : Type} [DecidableEq α] : List α → List α
  | [] => []
  | x :: xs => x :: (firstOccur xs).filter (fun y => y ≠ x)

/-- Number of occurrences of `x` in `l`. -/
def countVal {α : Type} [DecidableEq α] (l : List α) (x : α) : Nat :=
  (l.filter (fun y => y = x)).length

/-- `Series.value_counts()`: the distinct values of `l` with their
occurrence counts, sorted by descending count. -/
def value_counts {α : Type} [DecidableEq α] (l : List α) : List (α × Nat) :=
  sortByLe (fun a b => decide (b.2 ≤ a.2))
    ((firstOccur l).map (fun x => (x, countVal l x)))

/-- Ascending test on `Int` group keys (`groupby` sorts keys). -/
def intLeB (a b : Int) : Bool := decide (a ≤ b)

/-- Lexicographic comparison of strings by Unicode code point, the order
pandas `groupby` sorts string keys in. -/
def lexLe : List Char → List Char → Bool
  | [], _ => true
  | _ :: _, [] => false
  | c :: cs, d :: ds =>
    if c.val < d.val then true else if d.val < c.val then false else lexLe cs ds

/-- Ascending test on `String` group keys. -/
def strLeB (a b : String) : Bool := lexLe a.data b.data

/-- The rows surviving `df.dropna(subset=['timestamp'])` after the
coercing conversion: those whose timestamp parsed. -/
def survivors (t : Table) : List Row := t.rows.filter (fun r => r.timestamp.isSome)

/-- `df['timestamp'].dt.floor('s')` on a surviving row: the converted
timestamp floored to the whole second. -/
def floorSec (r : Row) : Int :=
  match r.timestamp with
  | some q => ⌊q⌋
  | none => 0

/-- `df['protocol'].value_counts()`: rows per distinct protocol,
descending. -/
def protocol_counts (rows : List Row) : List (String × Nat) :=
  value_counts (rows.map (fun r => r.protocol))

/-- `df.groupby(df['timestamp'].dt.floor('s')).size()`: rows per
one-second bucket, bucket keys ascending. -/
def pps_buckets (rows : List Row) : List (Int × Nat) :=
  (sortByLe intLeB (firstOccur (rows.map floorSec))).map
    (fun s => (s, countVal (rows.map floorSec) s))

/-- Mean `size` of the rows with protocol `p`
(`df.groupby('protocol')['size'].mean()` for one group). -/
def meanSize (rows : List Row) (p : String) : ℚ :=
  let sizes := (rows.filter (fun r => r.protocol = p)).map (fun r => r.size)
  sizes.sum / (sizes.length : ℚ)

/-- The Python format `f"{s:.1f}"`: one decimal place.  Tenths are
obtained by rounding `10·q` to the nearest integer (the model of the
decimal rounding the float formatter performs). -/
def fmtOneDec (q : ℚ) : String :=
  let n : Int := round (q * 10)
  (if n < 0 then "-" else "") ++ toString (n.natAbs / 10) ++ "." ++ toString (n.natAbs % 10)

/-- `df.groupby('protocol')['size'].mean()` with the bar labels
`f"{s:.1f} bytes"`: per protocol (keys ascending) the mean size and its
label. -/
def avg_size (rows : List Row) : List (String × ℚ × String) :=
  (sortByLe strLeB (firstOccur (rows.map (fun r => r.protocol)))).map
    (fun p => (p, meanSize rows p, fmtOneDec (meanSize rows p) ++ " bytes"))

/-- `df['source'].value_counts().head(10)`: the ten top source counts. -/
def top_sources (rows : List Row) : List (String × Nat) :=
  (value_counts (rows.map (fun r => r.source))).take 10

/-- The body of `create_visualization(df)`.  Returns the ordered list of
output items written to the dashboard and the table as left after the
in-place mutations (`df['timestamp'] = pd.to_datetime(...)` plus
`df.dropna(subset=['timestamp'], inplace=True)`).
* empty table: warning banner, return;
* missing `timestamp` column: the guarded conversion raises, the error
  banner is shown, return (the table is untouched — the assignment never
  happened);
* otherwise rows that fail conversion are dropped and the four widgets
  (pie, line, bar, and — when a `source` column exists — the top-talkers
  table) are rendered from the surviving rows, then the success banner. -/
def create_visualization (t : Table) : List OutItem × Table :=
  if t.rows = [] then
    ([OutItem.header "🌐 Real-Time Network Traffic Dashboard",
      OutItem.warning "⚠️ No data available yet. Waiting for packets..."], t)
  else if t.hasTimestamp then
    let rows := survivors t
    ([OutItem.header "🌐 Real-Time Network Traffic Dashboard",
      OutItem.subheader "1️⃣ Protocol Distribution",
      OutItem.pieChart "Protocol Distribution (Live)" (protocol_counts rows),
      OutItem.subheader "2️⃣ Packets per Second (Real-Time Trend)",
      OutItem.lineChart "Packets per Second (Real-Time)" (pps_buckets rows),
      OutItem.subheader "3️⃣ Average Packet Size by Protocol",
      OutItem.barChart "Average Packet Size by Protocol" (avg_size rows)] ++
     (if t.hasSource then
       [OutItem.subheader "4️⃣ Top Source IPs (By Packet Count)",
        OutItem.tableWidget (top_sources rows)]
      else []) ++
     [OutItem.success "✅ Dashboard updated successfully!"],
     { t with rows := rows })
  else
    ([OutItem.header "🌐 Real-Time Network Traffic Dashboard",
      OutItem.error "Timestamp conversion failed: KeyError"], t)

/-! ### Library lemmas about the sorting and counting helpers -/

theorem insertLe_perm {α : Type} (le : α → α → Bool) (x : α) (l : List α) :
    (insertLe le x l).Perm (x :: l) := by
  induction l with
  | nil => simp [insertLe]
  | cons y ys ih =>
    by_cases h : le x y = true
    · simp [insertLe, h]
    · simp only [insertLe, h, if_neg, Bool.false_eq_true, not_false_iff, ite_false]
      exact (ih.cons y).trans (List.Perm.swap x y ys)

theorem sortByLe_perm {α : Type} (le : α → α → Bool) (l : List α) :
    (sortByLe le l).Perm l := by
  induction l with
  | nil => simp [sortByLe]
  | cons x xs ih => exact (insertLe_perm le x (sortByLe le xs)).trans (ih.cons x)

theorem mem_sortByLe {α : Type} {le : α → α → Bool} {a : α} {l : List α} :
    a ∈ sortByLe le l ↔ a ∈ l :=
  (sortByLe_perm le l).mem_iff

theorem pairwise_insertLe {α : Type} {le : α → α → Bool}
    (htot : ∀ a b, (le a b || le b a) = true)
    (htrans : ∀ a b c, le a b = true → le b c = true → le a c = true)
    (x : α) {l : List α} (hl : l.Pairwise (fun a b => le a b = true)) :
    (insertLe le x l).Pairwise (fun a b => le a b = true) := by
  induction l with
  | nil => simp [insertLe]
  | cons y ys ih =>
    rcases List.pairwise_cons.mp hl with ⟨hy, hys⟩
    by_cases h : le x y = true
    · simp only [insertLe, h, ite_true]
      refine List.pairwise_cons.mpr ⟨?_, hl⟩
      intro b hb
      rcases List.mem_cons.mp hb with rfl | hb
      · exact h
      · exact htrans x y b h (hy b hb)
    · have hxy : le x y = false := by
        revert h; cases le x y <;> simp
      have hyx : le y x = true := by
        have := htot x y
        rw [hxy] at this
        simpa using this
      simp only [insertLe, hxy, Bool.false_eq_true, if_neg, not_false_iff, ite_false]
      refine List.pairwise_cons.mpr ⟨?_, ih hys⟩
      intro b hb
      rcases List.mem_cons.mp ((insertLe_perm le x ys).mem_iff.mp hb) with rfl | hb
      · exact hyx
      · exact hy b hb

theorem pairwise_sortByLe {α : Type} (le : α → α → Bool)
    (htot : ∀ a b, (le a b || le b a) = true)
    (htrans : ∀ a b c, le a b = true → le b c = true → le a c = true)
    (l : List α) :
    (sortByLe le l).Pairwise (fun a b => le a b = true) := by
  induction l with
  | nil => simp [sortByLe]
  | cons x xs ih => exact pairwise_insertLe htot htrans x ih

theorem mem_firstOccur {α : Type} [DecidableEq α] {a : α} {l : List α} :
    a ∈ firstOccur l ↔ a ∈ l := by
  induction l with
  | nil => simp [firstOccur]
  | cons x xs ih =>
    simp only [firstOccur, List.mem_cons, List.mem_filter, decide_eq_true_eq, ih]
    by_cases hax : a = x <;> simp [hax]

theorem nodup_firstOccur {α : Type} [DecidableEq α] (l : List α) :
    (firstOccur l).Nodup := by
  induction l with
  | nil => simp [firstOccur]
  | cons x xs ih =>
    simp only [firstOccur, List.nodup_cons]
    refine ⟨?_, ih.filter _⟩
    intro hx
    simpa using (List.mem_filter.mp hx).2

theorem countVal_filter_ne {α : Type} [DecidableEq α] {z y : α} (h : z ≠ y) (l : List α) :
    countVal (l.filter (fun a => a ≠ y)) z = countVal l z := by
  induction l with
  | nil => simp [countVal]
  | cons x xs ih =>
    by_cases hxy : x = y
    · subst hxy
      simpa [countVal, List.filter_cons, List.filter_filter, Ne.symm h, h] using ih
    · by_cases hxz : x = z <;>
        simpa [countVal, List.filter_cons, List.filter_filter, Ne.symm h, h, hxy, hxz] using ih

theorem countVal_add_length_filter {α : Type} [DecidableEq α] (l : List α) (y : α) :
    countVal l y + (l.filter (fun a => a ≠ y)).length = l.length := by
  induction l with
  | nil => simp [countVal]
  | cons x xs ih =>
    simp only [countVal] at ih ⊢
    by_cases hxy : x = y
    · subst hxy
      simp [List.filter_cons] at ih ⊢
      omega
    · simp [List.filter_cons, hxy] at ih ⊢
      omega

theorem sum_countVal_nodup {α : Type} [DecidableEq α] :
    ∀ (d : List α) (l : List α), d.Nodup → (∀ a ∈ l, a ∈ d) →
      (d.map (countVal l)).sum = l.length := by
  intro d
  induction d with
  | nil =>
    intro l _ hcov
    cases l with
    | nil => simp
    | cons a l => exact absurd (hcov a (List.mem_cons_self a l)) (List.not_mem_nil a)
  | cons y ds ih =>
    intro l hnd hcov
    rcases List.nodup_cons.mp hnd with ⟨hyd, hds⟩
    have hmap : ds.map (countVal l) = ds.map (countVal (l.filter (fun a => a ≠ y))) := by
      apply List.map_congr_left
      intro z hz
      have hzy : z ≠ y := fun hzyeq => hyd (hzyeq ▸ hz)
      exact (countVal_filter_ne hzy l).symm
    have hcov2 : ∀ a ∈ l.filter (fun a => a ≠ y), a ∈ ds := by
      intro a ha
      rcases List.mem_filter.mp ha with ⟨hal, hay⟩
      rcases List.mem_cons.mp (hcov a hal) with heq | hmem
      · exact absurd heq (by simpa using hay)
      · exact hmem
    calc ((y :: ds).map (countVal l)).sum
        = countVal l y + (ds.map (countVal l)).sum := by simp
      _ = countVal l y + (l.filter (fun a => a ≠ y)).length := by
          rw [hmap, ih (l.filter (fun a => a ≠ y)) hds hcov2]
      _ = l.length := countVal_add_length_filter l y

theorem sum_countVal_firstOccur {α : Type} [DecidableEq α] (l : List α) :
    ((firstOccur l).map (countVal l)).sum = l.length :=
  sum_countVal_nodup (firstOccur l) l (nodup_firstOccur l) (fun _ ha => mem_firstOccur.mpr ha)

theorem value_counts_perm {α : Type} [DecidableEq α] (l : List α) :
    (value_counts l).Perm ((firstOccur l).map (fun x => (x, countVal l x))) :=
  sortByLe_perm _ _

theorem mem_value_counts {α : Type} [DecidableEq α] {l : List α} {a : α} {k : Nat} :
    (a, k) ∈ value_counts l ↔ a ∈ l ∧ k = countVal l a := by
  rw [(value_counts_perm l).mem_iff]
  simp only [List.mem_map, Prod.mk.injEq]
  constructor
  · rintro ⟨x, hx, rfl, rfl⟩
    exact ⟨mem_firstOccur.mp hx, rfl⟩
  · rintro ⟨hal, rfl⟩
    exact ⟨a, mem_firstOccur.mpr hal, rfl, rfl⟩

theorem value_counts_map_fst_perm {α : Type} [DecidableEq α] (l : List α) :
    ((value_counts l).map Prod.fst).Perm (firstOccur l) := by
  have h := (value_counts_perm l).map Prod.fst
  simpa [List.map_map, Function.comp_def] using h

theorem nodup_value_counts_fst {α : Type} [DecidableEq α] (l : List α) :
    ((value_counts l).map Prod.fst).Nodup :=
  (value_counts_map_fst_perm l).symm.nodup (nodup_firstOccur l)

theorem value_counts_length {α : Type} [DecidableEq α] (l : List α) :
    (value_counts l).length = (firstOccur l).length := by
  rw [(value_counts_perm l).length_eq, List.length_map]

theorem value_counts_sum {α : Type} [DecidableEq α] (l : List α) :
    ((value_counts l).map Prod.snd).sum = l.length := by
  rw [((value_counts_perm l).map Prod.snd).sum_eq, List.map_map]
  simpa [Function.comp] using sum_countVal_firstOccur l

theorem pairwise_value_counts {α : Type} [DecidableEq α] (l : List α) :
    (value_counts l).Pairwise (fun a b => b.2 ≤ a.2) := by
  have h := pairwise_sortByLe (fun a b : α × Nat => decide (b.2 ≤ a.2))
      (fun a b => by simpa using Nat.le_total b.2 a.2)
      (fun a b c hab hbc => by
        simp only [decide_eq_true_eq] at *
        exact le_trans hbc hab)
      ((firstOccur l).map (fun x => (x, countVal l x)))
  have h2 : (value_counts l).Pairwise (fun a b : α × Nat => decide (b.2 ≤ a.2) = true) := h
  exact h2.imp (fun hab => by simpa using hab)

theorem survivors_filter_eq (t : Table) :
    survivors { t with rows := survivors t } = survivors t := by
  simp [survivors, List.filter_filter]

theorem pps_buckets_mem {rows : List Row} {s : Int} {k : Nat} :
    (s, k) ∈ pps_buckets rows ↔
      s ∈ rows.map floorSec ∧ k = countVal (rows.map floorSec) s := by
  constructor
  · intro h
    rcases List.mem_map.mp h with ⟨x, hx, hxy⟩
    cases hxy
    exact ⟨mem_firstOccur.mp (mem_sortByLe.mp hx), rfl⟩
  · rintro ⟨hs, rfl⟩
    exact List.mem_map.mpr ⟨s, mem_sortByLe.mpr (mem_firstOccur.mpr hs), rfl⟩

theorem pps_buckets_sorted (rows : List Row) :
    (pps_buckets rows).Pairwise (fun a b => a.1 < b.1) := by
  have hle := pairwise_sortByLe intLeB
      (fun a b => by simpa [intLeB] using Int.le_total a b)
      (fun a b c hab hbc => by
        simp only [intLeB, decide_eq_true_eq] at *
        exact le_trans hab hbc)
      (firstOccur (rows.map floorSec))
  have hnd : (sortByLe intLeB (firstOccur (rows.map floorSec))).Nodup :=
    (sortByLe_perm _ _).symm.nodup (nodup_firstOccur _)
  have hlt : (sortByLe intLeB (firstOccur (rows.map floorSec))).Pairwise (fun a b => a < b) := by
    have hand := hle.and hnd
    exact hand.imp (fun hab => lt_of_le_of_ne (by simpa [intLeB] using hab.1) hab.2)
  rw [pps_buckets]
  exact List.pairwise_map.mpr hlt

theorem pps_buckets_sum (rows : List Row) :
    ((pps_buckets rows).map Prod.snd).sum = rows.length := by
  have h := (sortByLe_perm intLeB (firstOccur (rows.map floorSec))).map
      (countVal (rows.map floorSec))
  have h2 : ((pps_buckets rows).map Prod.snd).sum
      = ((firstOccur (rows.map floorSec)).map (countVal (rows.map floorSec))).sum := by
    rw [pps_buckets, List.map_map]
    exact List.Perm.sum_eq (by simpa [Function.comp_def] using h)
  rw [h2, sum_countVal_firstOccur, List.length_map]

theorem avg_size_mem {rows : List Row} {p : String} {m : ℚ} {s : String} :
    (p, m, s) ∈ avg_size rows ↔
      p ∈ rows.map (fun r => r.protocol) ∧ m = meanSize rows p ∧
        s = fmtOneDec (meanSize rows p) ++ " bytes" := by
  constructor
  · intro h
    rcases List.mem_map.mp h with ⟨x, hx, hxy⟩
    cases hxy
    exact ⟨mem_firstOccur.mp (mem_sortByLe.mp hx), rfl, rfl⟩
  · rintro ⟨hp, rfl, rfl⟩
    exact List.mem_map.mpr ⟨p, mem_sortByLe.mpr (mem_firstOccur.mpr hp), rfl⟩

theorem avg_size_fst (rows : List Row) :
    (avg_size rows).map Prod.fst
      = sortByLe strLeB (firstOccur (rows.map (fun r => r.protocol))) := by
  simp [avg_size, List.map_map, Function.comp_def]

theorem avg_size_fst_mem {rows : List Row} {p : String} :
    p ∈ (avg_size rows).map Prod.fst ↔ p ∈ rows.map (fun r => r.protocol) := by
  rw [avg_size_fst, mem_sortByLe]
  exact mem_firstOccur

theorem avg_size_fst_nodup (rows : List Row) : ((avg_size rows).map Prod.fst).Nodup := by
  rw [avg_size_fst]
  exact (sortByLe_perm _ _).symm.nodup (nodup_firstOccur _)

theorem top_sources_mem {rows : List Row} {a : String} {k : Nat}
    (h : (a, k) ∈ top_sources rows) :
    a ∈ rows.map (fun r => r.source) ∧ k = countVal (rows.map (fun r => r.source)) a :=
  mem_value_counts.mp ((List.take_sublist 10 _).mem h)

theorem top_sources_sorted (rows : List Row) :
    (top_sources rows).Pairwise (fun a b => b.2 ≤ a.2) :=
  List.Pairwise.sublist (List.take_sublist 10 _) (pairwise_value_counts _)

theorem top_sources_length (rows : List Row) :
    (top_sources rows).length
      = min 10 (firstOccur (rows.map (fun r => r.source))).length := by
  rw [top_sources, List.length_take, value_counts_length]

theorem top_sources_fst_nodup (rows : List Row) :
    ((top_sources rows).map Prod.fst).Nodup :=
  (nodup_value_counts_fst (rows.map (fun r => r.source))).sublist
    ((List.take_sublist 10 _).map Prod.fst)

theorem top_sources_top {rows : List Row} {a : String × Nat} (ha : a ∈ top_sources rows)
    {s : String} (hs : s ∈ rows.map (fun r => r.source))
    (hnot : s ∉ (top_sources rows).map Prod.fst) :
    countVal (rows.map (fun r => r.source)) s ≤ a.2 := by
  have hpw := pairwise_value_counts (rows.map (fun r => r.source))
  rw [← List.take_append_drop 10 (value_counts (rows.map (fun r => r.source)))] at hpw
  rcases List.pairwise_append.mp hpw with ⟨-, -, hcross⟩
  have hmem : (s, countVal (rows.map (fun r => r.source)) s)
      ∈ value_counts (rows.map (fun r => r.source)) :=
    mem_value_counts.mpr ⟨hs, rfl⟩
  rw [← List.take_append_drop 10 (value_counts (rows.map (fun r => r.source)))] at hmem
  rcases List.mem_append.mp hmem with htake | hdrop
  · exact absurd (List.mem_map.mpr ⟨_, htake, rfl⟩) hnot
  · exact hcross a ha _ hdrop

theorem create_visualization_main {t : Table} (h1 : ¬ t.rows = []) (h2 : t.hasTimestamp = true) :
    create_visualization t =
      ([OutItem.header "🌐 Real-Time Network Traffic Dashboard",
        OutItem.subheader "1️⃣ Protocol Distribution",
        OutItem.pieChart "Protocol Distribution (Live)" (protocol_counts (survivors t)),
        OutItem.subheader "2️⃣ Packets per Second (Real-Time Trend)",
        OutItem.lineChart "Packets per Second (Real-Time)" (pps_buckets (survivors t)),
        OutItem.subheader "3️⃣ Average Packet Size by Protocol",
        OutItem.barChart "Average Packet Size by Protocol" (avg_size (survivors t))] ++
       (if t.hasSource then
         [OutItem.subheader "4️⃣ Top Source IPs (By Packet Count)",
          OutItem.tableWidget (top_sources (survivors t))]
        else []) ++
       [OutItem.success "✅ Dashboard updated successfully!"],
       { t with rows := survivors t }) := by
  simp [create_visualization, h1, h2]

/-! ### Claim theorems -/

/-- C4: for an empty input table the renderer displays the "no data"
notice and returns without producing any chart widget and without raising
an error; the input table is left unchanged. -/
theorem c4_empty_table_notice {t : Table} (h : t.rows = []) :
    OutItem.warning "⚠️ No data available yet. Waiting for packets..."
        ∈ (create_visualization t).1 ∧
      (create_visualization t).1.any OutItem.isChart = false ∧
      (create_visualization t).1.any OutItem.isError = false ∧
      (create_visualization t).2 = t := by
  simp [create_visualization, h, OutItem.isChart, OutItem.isError]

/-- Concrete empty table used to witness C4. -/
def sampleEmpty : Table := { hasTimestamp := true, hasSource := true, rows := [] }

theorem c4_witness :
    sampleEmpty.rows = [] ∧
      (OutItem.warning "⚠️ No data available yet. Waiting for packets..."
          ∈ (create_visualization sampleEmpty).1 ∧
        (create_visualization sampleEmpty).1.any OutItem.isChart = false ∧
        (create_visualization sampleEmpty).1.any OutItem.isError = false ∧
        (create_visualization sampleEmpty).2 = sampleEmpty) :=
  ⟨rfl, c4_empty_table_notice rfl⟩

/-- C3: when the timestamp-conversion step raises (here: the `timestamp`
column is missing), the renderer reports the error to the user-facing
output and returns early — no chart widget and no success acknowledgment
are produced. -/
theorem c3_conversion_error_aborts {t : Table} (h1 : t.rows ≠ [])
    (h2 : t.hasTimestamp = false) :
    OutItem.error "Timestamp conversion failed: KeyError" ∈ (create_visualization t).1 ∧
      (create_visualization t).1.any OutItem.isChart = false ∧
      (create_visualization t).1.any OutItem.isSuccess = false := by
  simp [create_visualization, h1, h2, OutItem.isChart, OutItem.isSuccess]

/-- Concrete one-row table without a `timestamp` column, witnessing C3. -/
def sampleNoTs : Table :=
  { hasTimestamp := false, hasSource := false,
    rows := [{ timestamp := some 0, protocol := "TCP", size := 10, source := "a" }] }

theorem c3_witness :
    sampleNoTs.rows ≠ [] ∧ sampleNoTs.hasTimestamp = false ∧
      (OutItem.error "Timestamp conversion failed: KeyError"
          ∈ (create_visualization sampleNoTs).1 ∧
        (create_visualization sampleNoTs).1.any OutItem.isChart = false ∧
        (create_visualization sampleNoTs).1.any OutItem.isSuccess = false) :=
  ⟨by decide, by decide, c3_conversion_error_aborts (by decide) (by decide)⟩

/-- C9: the only mutation the call performs on the table is dropping the
rows whose timestamp failed conversion: the resulting row list is a
sublist of the input rows (hence every surviving row keeps its `protocol`,
`size` and `source` values unchanged and no row is added), and the column
flags are unchanged. -/
theorem c9_frame (t : Table) :
    (create_visualization t).2.rows.Sublist t.rows ∧
      (create_visualization t).2.hasTimestamp = t.hasTimestamp ∧
      (create_visualization t).2.hasSource = t.hasSource := by
  by_cases h1 : t.rows = []
  · simp [create_visualization, h1]
  · by_cases h2 : t.hasTimestamp = true
    · simp [create_visualization, h1, h2, survivors, List.filter_sublist]
    · have h2f : t.hasTimestamp = false := by
        revert h2; cases t.hasTimestamp <;> simp
      simp [create_visualization, h1, h2f]

theorem countVal_map {α β : Type} [DecidableEq β] (f : α → β) (l : List α) (x : β) :
    countVal (l.map f) x = (l.filter (fun a => f a = x)).length := by
  rw [countVal, List.filter_map, List.length_map]
  simp [Function.comp_def]

/-- C10: the protocol-distribution counts and the per-second bucket counts
both sum to the number of rows surviving coercion — neither aggregation
double-counts or drops a row — and both widgets are rendered from those
aggregations. -/
theorem c10_count_conservation {t : Table} (h1 : t.rows ≠ [])
    (h2 : t.hasTimestamp = true) :
    ((protocol_counts (survivors t)).map Prod.snd).sum = (survivors t).length ∧
      ((pps_buckets (survivors t)).map Prod.snd).sum = (survivors t).length ∧
      OutItem.pieChart "Protocol Distribution (Live)" (protocol_counts (survivors t))
          ∈ (create_visualization t).1 ∧
      OutItem.lineChart "Packets per Second (Real-Time)" (pps_buckets (survivors t))
          ∈ (create_visualization t).1 := by
  have hmain := create_visualization_main h1 h2
  refine ⟨?_, pps_buckets_sum (survivors t), ?_, ?_⟩
  · rw [protocol_counts, value_counts_sum, List.length_map]
  · rw [hmain]; simp
  · rw [hmain]; simp

/-- Concrete two-row table with distinct protocols, witnessing C10. -/
def sampleTwo : Table :=
  { hasTimestamp := true, hasSource := true,
    rows := [{ timestamp := some 0, protocol := "TCP", size := 10, source := "a" },
             { timestamp := some 1, protocol := "UDP", size := 20, source := "b" }] }

theorem c10_witness :
    sampleTwo.rows ≠ [] ∧ sampleTwo.hasTimestamp = true ∧
      (((protocol_counts (survivors sampleTwo)).map Prod.snd).sum
            = (survivors sampleTwo).length ∧
        ((pps_buckets (survivors sampleTwo)).map Prod.snd).sum
            = (survivors sampleTwo).length ∧
        OutItem.pieChart "Protocol Distribution (Live)" (protocol_counts (survivors sampleTwo))
            ∈ (create_visualization sampleTwo).1 ∧
        OutItem.lineChart "Packets per Second (Real-Time)" (pps_buckets (survivors sampleTwo))
            ∈ (create_visualization sampleTwo).1) :=
  ⟨by decide, by decide, c10_count_conservation (by decide) (by decide)⟩

/-- C8: the protocol-distribution widget is rendered from the surviving
rows and reports, for each distinct `protocol` value among them, the
number of surviving rows carrying it: its categories are pairwise
distinct, each entry's count is exact, and every surviving row's protocol
appears as a category. -/
theorem c8_protocol_distribution {t : Table} (h1 : t.rows ≠ [])
    (h2 : t.hasTimestamp = true) :
    OutItem.pieChart "Protocol Distribution (Live)" (protocol_counts (survivors t))
        ∈ (create_visualization t).1 ∧
      ((protocol_counts (survivors t)).map Prod.fst).Nodup ∧
      (∀ p k, (p, k) ∈ protocol_counts (survivors t) →
        k = ((survivors t).filter (fun r => r.protocol = p)).length) ∧
      (∀ r ∈ survivors t, r.protocol ∈ (protocol_counts (survivors t)).map Prod.fst) := by
  have hmain := create_visualization_main h1 h2
  refine ⟨by rw [hmain]; simp, nodup_value_counts_fst _, ?_, ?_⟩
  · intro p k hk
    rw [protocol_counts] at hk
    rcases mem_value_counts.mp hk with ⟨-, hcount⟩
    rw [hcount, countVal_map]
  · intro r hr
    have hmem : (r.protocol, countVal ((survivors t).map (fun x => x.protocol)) r.protocol)
        ∈ protocol_counts (survivors t) := by
      rw [protocol_counts]
      exact mem_value_counts.mpr ⟨List.mem_map.mpr ⟨r, hr, rfl⟩, rfl⟩
    exact List.mem_map.mpr ⟨_, hmem, rfl⟩

/-- Concrete three-row single-protocol table, witnessing C8: one pie
category whose count is the row count. -/
def sampleMono : Table :=
  { hasTimestamp := true, hasSource := false,
    rows := [{ timestamp := some 0, protocol := "TCP", size := 10, source := "a" },
             { timestamp := some 1, protocol := "TCP", size := 20, source := "b" },
             { timestamp := some 2, protocol := "TCP", size := 30, source := "c" }] }

theorem c8_witness :
    sampleMono.rows ≠ [] ∧ sampleMono.hasTimestamp = true ∧
      (OutItem.pieChart "Protocol Distribution (Live)" (protocol_counts (survivors sampleMono))
          ∈ (create_visualization sampleMono).1 ∧
        ((protocol_counts (survivors sampleMono)).map Prod.fst).Nodup ∧
        (∀ p k, (p, k) ∈ protocol_counts (survivors sampleMono) →
          k = ((survivors sampleMono).filter (fun r => r.protocol = p)).length) ∧
        (∀ r ∈ survivors sampleMono,
          r.protocol ∈ (protocol_counts (survivors sampleMono)).map Prod.fst)) ∧
      protocol_counts (survivors sampleMono) = [("TCP", 3)] ∧
      (survivors sampleMono).length = 3 :=
  ⟨by decide, by decide, c8_protocol_distribution (by decide) (by decide), by decide, by decide⟩

/-- C2: rows whose timestamp fails conversion are silently discarded from
the whole rendering pass — rendering the table gives exactly the same
output and final state as rendering the table pre-filtered to the rows
whose timestamps convert — while the surviving rows feed all widgets,
which are all rendered (pie, line and bar charts and the success banner;
the top-talkers table as well when `source` is present). -/
theorem c2_failed_rows_excluded {t : Table} (h2 : t.hasTimestamp = true)
    (h3 : survivors t ≠ []) :
    create_visualization t
        = create_visualization
            { hasTimestamp := t.hasTimestamp, hasSource := t.hasSource, rows := survivors t } ∧
      OutItem.pieChart "Protocol Distribution (Live)" (protocol_counts (survivors t))
          ∈ (create_visualization t).1 ∧
      OutItem.lineChart "Packets per Second (Real-Time)" (pps_buckets (survivors t))
          ∈ (create_visualization t).1 ∧
      OutItem.barChart "Average Packet Size by Protocol" (avg_size (survivors t))
          ∈ (create_visualization t).1 ∧
      (t.hasSource = true →
        OutItem.tableWidget (top_sources (survivors t)) ∈ (create_visualization t).1) ∧
      OutItem.success "✅ Dashboard updated successfully!" ∈ (create_visualization t).1 := by
  have h1 : ¬ t.rows = [] := by
    intro h
    exact h3 (by simp [survivors, h])
  have hmain := create_visualization_main h1 h2
  have hmain2 := @create_visualization_main
      { hasTimestamp := t.hasTimestamp, hasSource := t.hasSource, rows := survivors t }
      h3 h2
  refine ⟨?_, ?_, ?_, ?_, ?_, ?_⟩
  · rw [hmain, hmain2, survivors_filter_eq]
  · rw [hmain]; simp
  · rw [hmain]; simp
  · rw [hmain]; simp
  · intro hsrc; rw [hmain]; simp [hsrc]
  · rw [hmain]; cases hsrc : t.hasSource <;> simp [hsrc]

/-- Concrete table mixing one parsable-timestamp row and one unparsable
one, witnessing C2. -/
def sampleMixed : Table :=
  { hasTimestamp := true, hasSource := true,
    rows := [{ timestamp := some 0, protocol := "TCP", size := 10, source := "a" },
             { timestamp := none, protocol := "UDP", size := 20, source := "b" }] }

theorem c2_witness :
    sampleMixed.hasTimestamp = true ∧ survivors sampleMixed ≠ [] ∧
      (create_visualization sampleMixed
          = create_visualization
              { hasTimestamp := sampleMixed.hasTimestamp, hasSource := sampleMixed.hasSource,
                rows := survivors sampleMixed } ∧
        OutItem.pieChart "Protocol Distribution (Live)" (protocol_counts (survivors sampleMixed))
            ∈ (create_visualization sampleMixed).1 ∧
        OutItem.lineChart "Packets per Second (Real-Time)" (pps_buckets (survivors sampleMixed))
            ∈ (create_visualization sampleMixed).1 ∧
        OutItem.barChart "Average Packet Size by Protocol" (avg_size (survivors sampleMixed))
            ∈ (create_visualization sampleMixed).1 ∧
        (sampleMixed.hasSource = true →
          OutItem.tableWidget (top_sources (survivors sampleMixed))
              ∈ (create_visualization sampleMixed).1) ∧
        OutItem.success "✅ Dashboard updated successfully!"
            ∈ (create_visualization sampleMixed).1) ∧
      survivors sampleMixed
        = [{ timestamp := some 0, protocol := "TCP", size := 10, source := "a" }] :=
  ⟨by decide, by decide, c2_failed_rows_excluded (by decide) (by decide), by decide⟩

/-- C6: the packets-per-second widget is rendered from per-second buckets:
each surviving row's converted timestamp is floored to the whole second,
each bucket's count is the number of surviving rows flooring to that
second, every surviving row's second appears as a bucket, and the buckets
are listed in strictly increasing time order. -/
theorem c6_packets_per_second {t : Table} (h1 : t.rows ≠ [])
    (h2 : t.hasTimestamp = true) :
    OutItem.lineChart "Packets per Second (Real-Time)" (pps_buckets (survivors t))
        ∈ (create_visualization t).1 ∧
      (pps_buckets (survivors t)).Pairwise (fun a b => a.1 < b.1) ∧
      (∀ s k, (s, k) ∈ pps_buckets (survivors t) →
        k = ((survivors t).filter (fun r => floorSec r = s)).length) ∧
      (∀ r ∈ survivors t,
        (floorSec r, ((survivors t).filter (fun x => floorSec x = floorSec r)).length)
          ∈ pps_buckets (survivors t)) := by
  have hmain := create_visualization_main h1 h2
  refine ⟨by rw [hmain]; simp, pps_buckets_sorted _, ?_, ?_⟩
  · intro s k hk
    rcases pps_buckets_mem.mp hk with ⟨-, hcount⟩
    rw [hcount, countVal_map]
  · intro r hr
    have := pps_buckets_mem.mpr
      ⟨List.mem_map.mpr ⟨r, hr, rfl⟩, rfl⟩
    rwa [countVal_map] at this

/-- Concrete table with timestamps 0, 0 and 1 seconds, witnessing C6:
two buckets, second 0 with count 2 and second 1 with count 1. -/
def sampleTs001 : Table :=
  { hasTimestamp := true, hasSource := false,
    rows := [{ timestamp := some 0, protocol := "TCP", size := 10, source := "a" },
             { timestamp := some 0, protocol := "UDP", size := 20, source := "b" },
             { timestamp := some 1, protocol := "TCP", size := 30, source := "c" }] }

theorem c6_witness :
    sampleTs001.rows ≠ [] ∧ sampleTs001.hasTimestamp = true ∧
      (OutItem.lineChart "Packets per Second (Real-Time)" (pps_buckets (survivors sampleTs001))
          ∈ (create_visualization sampleTs001).1 ∧
        (pps_buckets (survivors sampleTs001)).Pairwise (fun a b => a.1 < b.1) ∧
        (∀ s k, (s, k) ∈ pps_buckets (survivors sampleTs001) →
          k = ((survivors sampleTs001).filter (fun r => floorSec r = s)).length) ∧
        (∀ r ∈ survivors sampleTs001,
          (floorSec r,
            ((survivors sampleTs001).filter (fun x => floorSec x = floorSec r)).length)
            ∈ pps_buckets (survivors sampleTs001))) ∧
      pps_buckets (survivors sampleTs001) = [(0, 2), (1, 1)] :=
  ⟨by decide, by decide, c6_packets_per_second (by decide) (by decide), by decide⟩

/-- C5: the top-talkers widget is rendered exactly when the table has a
`source` column; its data lists distinct source addresses with their exact
row counts in descending count order, it keeps only the highest counts
(any source left out has a count no larger than any listed entry), and its
length is the number of distinct sources capped at 10. -/
theorem c5_top_talkers {t : Table} (h1 : t.rows ≠ []) (h2 : t.hasTimestamp = true) :
    ((∃ d, OutItem.tableWidget d ∈ (create_visualization t).1) ↔ t.hasSource = true) ∧
      (t.hasSource = true →
        OutItem.tableWidget (top_sources (survivors t)) ∈ (create_visualization t).1) ∧
      ((top_sources (survivors t)).map Prod.fst).Nodup ∧
      (top_sources (survivors t)).Pairwise (fun a b => b.2 ≤ a.2) ∧
      (∀ a k, (a, k) ∈ top_sources (survivors t) →
        k = ((survivors t).filter (fun r => r.source = a)).length) ∧
      (top_sources (survivors t)).length
        = min 10 (firstOccur ((survivors t).map (fun r => r.source))).length ∧
      (∀ a ∈ top_sources (survivors t), ∀ s,
        (∃ r ∈ survivors t, r.source = s) →
        s ∉ (top_sources (survivors t)).map Prod.fst →
        ((survivors t).filter (fun r => r.source = s)).length ≤ a.2) := by
  have hmain := create_visualization_main h1 h2
  refine ⟨?_, ?_, top_sources_fst_nodup _, top_sources_sorted _, ?_, top_sources_length _, ?_⟩
  · constructor
    · rintro ⟨d, hd⟩
      by_contra hsrc
      have hfalse : t.hasSource = false := by
        revert hsrc; cases t.hasSource <;> simp
      rw [hmain] at hd
      simp [hfalse] at hd
    · intro hsrc
      exact ⟨top_sources (survivors t), by rw [hmain]; simp [hsrc]⟩
  · intro hsrc
    rw [hmain]; simp [hsrc]
  · intro a k hk
    rcases top_sources_mem hk with ⟨-, hcount⟩
    rw [hcount, countVal_map]
  · intro a ha s hs hnot
    have hsmem : s ∈ (survivors t).map (fun r => r.source) := by
      rcases hs with ⟨r, hr, hrs⟩
      exact List.mem_map.mpr ⟨r, hr, hrs⟩
    have htop := top_sources_top ha hsmem hnot
    rwa [countVal_map] at htop

/-- Concrete table with 15 rows carrying 15 distinct source addresses,
witnessing C5: exactly 10 rows appear in the top-talkers data. -/
def sample15 : Table :=
  { hasTimestamp := true, hasSource := true,
    rows := [{ timestamp := some 0, protocol := "TCP", size := 1, source := "s01" },
             { timestamp := some 0, protocol := "TCP", size := 1, source := "s02" },
             { timestamp := some 0, protocol := "TCP", size := 1, source := "s03" },
             { timestamp := some 0, protocol := "TCP", size := 1, source := "s04" },
             { timestamp := some 0, protocol := "TCP", size := 1, source := "s05" },
             { timestamp := some 0, protocol := "TCP", size := 1, source := "s06" },
             { timestamp := some 0, protocol := "TCP", size := 1, source := "s07" },
             { timestamp := some 0, protocol := "TCP", size := 1, source := "s08" },
             { timestamp := some 0, protocol := "TCP", size := 1, source := "s09" },
             { timestamp := some 0, protocol := "TCP", size := 1, source := "s10" },
             { timestamp := some 0, protocol := "TCP", size := 1, source := "s11" },
             { timestamp := some 0, protocol := "TCP", size := 1, source := "s12" },
             { timestamp := some 0, protocol := "TCP", size := 1, source := "s13" },
             { timestamp := some 0, protocol := "TCP", size := 1, source := "s14" },
             { timestamp := some 0, protocol := "TCP", size := 1, source := "s15" }] }

theorem c5_witness :
    sample15.rows ≠ [] ∧ sample15.hasTimestamp = true ∧
      (((∃ d, OutItem.tableWidget d ∈ (create_visualization sample15).1)
            ↔ sample15.hasSource = true) ∧
        (sample15.hasSource = true →
          OutItem.tableWidget (top_sources (survivors sample15))
              ∈ (create_visualization sample15).1) ∧
        ((top_sources (survivors sample15)).map Prod.fst).Nodup ∧
        (top_sources (survivors sample15)).Pairwise (fun a b => b.2 ≤ a.2) ∧
        (∀ a k, (a, k) ∈ top_sources (survivors sample15) →
          k = ((survivors sample15).filter (fun r => r.source = a)).length) ∧
        (top_sources (survivors sample15)).length
          = min 10 (firstOccur ((survivors sample15).map (fun r => r.source))).length ∧
        (∀ a ∈ top_sources (survivors sample15), ∀ s,
          (∃ r ∈ survivors sample15, r.source = s) →
          s ∉ (top_sources (survivors sample15)).map Prod.fst →
          ((survivors sample15).filter (fun r => r.source = s)).length ≤ a.2)) ∧
      (top_sources (survivors sample15)).length = 10 ∧
      (firstOccur ((survivors sample15).map (fun r => r.source))).length = 15 :=
  ⟨by decide, by decide, c5_top_talkers (by decide) (by decide), by decide, by decide⟩

/-- C7: the average-size widget is rendered from the surviving rows
grouped by protocol: its bars carry pairwise-distinct protocols, each
bar's value is the arithmetic mean of `size` over that protocol's
surviving rows, each bar's label is the mean formatted to one decimal
place followed by " bytes", and a protocol appears exactly when some
surviving row carries it. -/
theorem c7_average_size {t : Table} (h1 : t.rows ≠ []) (h2 : t.hasTimestamp = true) :
    OutItem.barChart "Average Packet Size by Protocol" (avg_size (survivors t))
        ∈ (create_visualization t).1 ∧
      ((avg_size (survivors t)).map Prod.fst).Nodup ∧
      (∀ p m s, (p, m, s) ∈ avg_size (survivors t) →
        m = meanSize (survivors t) p ∧ s = fmtOneDec m ++ " bytes") ∧
      (∀ p, p ∈ (avg_size (survivors t)).map Prod.fst ↔
        ∃ r ∈ survivors t, r.protocol = p) := by
  have hmain := create_visualization_main h1 h2
  refine ⟨by rw [hmain]; simp, avg_size_fst_nodup _, ?_, ?_⟩
  · intro p m s hmem
    rcases avg_size_mem.mp hmem with ⟨-, hm, hs⟩
    subst hm
    exact ⟨rfl, hs⟩
  · intro p
    rw [avg_size_fst_mem]
    exact List.mem_map

/-- Concrete table with TCP sizes 10 and 20 and UDP size 100, witnessing
C7: means TCP = 15.0 and UDP = 100.0 with their labels. -/
def sampleSizes : Table :=
  { hasTimestamp := true, hasSource := false,
    rows := [{ timestamp := some 0, protocol := "TCP", size := 10, source := "a" },
             { timestamp := some 0, protocol := "TCP", size := 20, source := "b" },
             { timestamp := some 0, protocol := "UDP", size := 100, source := "c" }] }

theorem c7_witness :
    sampleSizes.rows ≠ [] ∧ sampleSizes.hasTimestamp = true ∧
      (OutItem.barChart "Average Packet Size by Protocol" (avg_size (survivors sampleSizes))
          ∈ (create_visualization sampleSizes).1 ∧
        ((avg_size (survivors sampleSizes)).map Prod.fst).Nodup ∧
        (∀ p m s, (p, m, s) ∈ avg_size (survivors sampleSizes) →
          m = meanSize (survivors sampleSizes) p ∧ s = fmtOneDec m ++ " bytes") ∧
        (∀ p, p ∈ (avg_size (survivors sampleSizes)).map Prod.fst ↔
          ∃ r ∈ survivors sampleSizes, r.protocol = p)) ∧
      avg_size (survivors sampleSizes)
        = [("TCP", 15, "15.0 bytes"), ("UDP", 100, "100.0 bytes")] := by
  refine ⟨by decide, by decide, c7_average_size (by decide) (by decide), ?_⟩
  have hsorted : sortByLe strLeB
      (firstOccur ((survivors sampleSizes).map (fun r => r.protocol))) = ["TCP", "UDP"] := by
    decide
  have hfilTCP : ((survivors sampleSizes).filter (fun r => r.protocol = "TCP")).map
      (fun r => r.size) = [10, 20] := by decide
  have hfilUDP : ((survivors sampleSizes).filter (fun r => r.protocol = "UDP")).map
      (fun r => r.size) = [100] := by decide
  have hTCP : meanSize (survivors sampleSizes) "TCP" = 15 := by
    simp only [meanSize, hfilTCP]
    norm_num
  have hUDP : meanSize (survivors sampleSizes) "UDP" = 100 := by
    simp only [meanSize, hfilUDP]
    norm_num
  have hr150 : round ((15 : ℚ) * 10) = 150 := by norm_num [round_eq]
  have hr1000 : round ((100 : ℚ) * 10) = 1000 := by norm_num [round_eq]
  have hfTCP : fmtOneDec 15 = "15.0" := by
    simp only [fmtOneDec, hr150]
    decide
  have hfUDP : fmtOneDec 100 = "100.0" := by
    simp only [fmtOneDec, hr1000]
    decide
  rw [avg_size, hsorted]
  simp only [List.map_cons, List.map_nil, hTCP, hUDP, hfTCP, hfUDP]
  decide

/-- Concrete non-empty table whose single row has an unparsable
timestamp, exercising the all-rows-fail path of C1. -/
def sampleAllBad : Table :=
  { hasTimestamp := true, hasSource := true,
    rows := [{ timestamp := none, protocol := "TCP", size := 10, source := "a" }] }

/-- C1 (counterexample): on a non-empty table every row of which has an
unparsable timestamp, the renderer reports no error and does render chart
widgets — the claimed error path is not taken. -/
theorem c1_counterexample :
    (create_visualization sampleAllBad).1.any OutItem.isError = false ∧
      (create_visualization sampleAllBad).1.any OutItem.isChart = true := by
  decide

/-- C1 (amended): if every row of a non-empty input table has a
non-numeric or unparsable timestamp, the renderer does not trigger the
error path: every row is dropped, the chart widgets are rendered with
empty data, no error is reported, and the success acknowledgment is
emitted. -/
theorem c1_all_rows_unparsable_renders_empty {t : Table} (h1 : t.rows ≠ [])
    (h2 : t.hasTimestamp = true) (h3 : ∀ r ∈ t.rows, r.timestamp = none) :
    (create_visualization t).1.any OutItem.isError = false ∧
      OutItem.pieChart "Protocol Distribution (Live)" [] ∈ (create_visualization t).1 ∧
      OutItem.lineChart "Packets per Second (Real-Time)" [] ∈ (create_visualization t).1 ∧
      OutItem.barChart "Average Packet Size by Protocol" [] ∈ (create_visualization t).1 ∧
      OutItem.success "✅ Dashboard updated successfully!" ∈ (create_visualization t).1 := by
  have hs : survivors t = [] := by
    rw [survivors, List.filter_eq_nil_iff]
    intro r hr
    simp [h3 r hr]
  have hmain := create_visualization_main h1 h2
  rw [hs] at hmain
  have hpc : protocol_counts [] = [] := rfl
  have hpp : pps_buckets [] = [] := rfl
  have hav : avg_size [] = [] := rfl
  rw [hpc, hpp, hav] at hmain
  refine ⟨?_, ?_, ?_, ?_, ?_⟩ <;>
    rw [hmain] <;> cases hsrc : t.hasSource <;> simp [hsrc, OutItem.isError]

theorem c1_witness :
    sampleAllBad.rows ≠ [] ∧ sampleAllBad.hasTimestamp = true ∧
      (∀ r ∈ sampleAllBad.rows, r.timestamp = none) ∧
      ((create_visualization sampleAllBad).1.any OutItem.isError = false ∧
        OutItem.pieChart "Protocol Distribution (Live)" []
            ∈ (create_visualization sampleAllBad).1 ∧
        OutItem.lineChart "Packets per Second (Real-Time)" []
            ∈ (create_visualization sampleAllBad).1 ∧
        OutItem.barChart "Average Packet Size by Protocol" []
            ∈ (create_visualization sampleAllBad).1 ∧
        OutItem.success "✅ Dashboard updated successfully!"
            ∈ (create_visualization sampleAllBad).1) :=
  ⟨by decide, by decide, by decide,
    c1_all_rows_unparsable_renders_empty (by decide) (by decide) (by decide)⟩
